import Mathlib

/-!
Verification of the analytics and reporting engine of `fitness_tracker.py`.

The Python source is shallowly embedded: each helper function of the source
becomes a Lean definition over an explicit record type.  Machine-level
details are modelled as follows.

* A workout record is the dict built in `main` (`Log Workout` branch), with
  the keys in insertion order `date, type, duration, calories, distance,
  heart_rate, notes`.  Python's `date.strftime("%Y-%m-%d")` strings are
  ordered lexicographically exactly as the underlying calendar dates are,
  so the `date` field is embedded as an integer day number (days since an
  arbitrary epoch); the source's string comparison in `calculate_metrics`
  becomes an integer comparison.
* `datetime.now()` is injected as a `Now` value: a day number plus a
  time-of-day `tod` (seconds after midnight, `tod < 86400`).  `pd.to_datetime`
  of a date string yields midnight of that day, so a record's timestamp is
  `date * 86400`, and `datetime.now() - timedelta(days=7)` is the timestamp
  `(day - 7) * 86400 + tod`.
* Python ints are `Int`; the float means computed by `pandas` are modelled
  exactly as rationals (`ℚ`).  `round(x, 1)` is modelled as rounding to one
  decimal with ties to even, mirroring Python's `round`.
* `random.choice(lst)` is modelled as indexing by an injected natural
  number modulo the list length (`randomChoice`): it succeeds exactly on
  non-empty lists.
-/

namespace FitnessTracker

/-- The workout dict appended by `save_workout` in `main`: keys
`date, type, duration, calories, distance, heart_rate, notes`. -/
structure Workout where
  date : ℤ
  type : String
  duration : ℤ
  calories : ℤ
  distance : ℚ
  heart_rate : ℤ
  notes : String
deriving DecidableEq, Repr

/-- An injected `datetime.now()`: calendar day number plus seconds after
midnight (`tod < 86400` for a real clock reading). -/
structure Now where
  day : ℤ
  tod : ℕ
deriving DecidableEq, Repr

/-- Mean of a list of rationals, as `pandas.Series.mean`: sum divided by
length (division by zero yields 0 in Lean, but every use below is guarded
by a non-emptiness check in the source). -/
def meanQ (l : List ℚ) : ℚ := l.sum / l.length

/-- `df['duration'].mean()` of the embedded record list. -/
def avgDurationQ (ws : List Workout) : ℚ := meanQ (ws.map fun w => (w.duration : ℚ))

/-- `df['calories'].mean()` of the embedded record list. -/
def avgCaloriesQ (ws : List Workout) : ℚ := meanQ (ws.map fun w => (w.calories : ℚ))

/-- `len(df['type'].unique())`: the number of distinct `type` values, in
first-occurrence order as `pandas` returns them. -/
def distinctTypeCount (ws : List Workout) : ℕ := ((ws.map fun w => w.type).eraseDups).length

/-- Rounding to the nearest integer with ties to even, as Python's `round`. -/
def roundHalfEven (q : ℚ) : ℤ :=
  let f := Int.floor q
  let frac := q - f
  if frac < 1 / 2 then f
  else if 1 / 2 < frac then f + 1
  else if f % 2 = 0 then f else f + 1

/-- Python's `round(x, 1)`: round to one decimal place. -/
def round1 (q : ℚ) : ℚ := (roundHalfEven (q * 10) : ℚ) / 10

/-- The weekly-workout count of `calculate_metrics`:
`df[df['date'] >= (datetime.now() - timedelta(days=7)).strftime("%Y-%m-%d")]`
compares the records' date strings with the date string of `now - 7 days`,
i.e. calendar dates with an inclusive lower bound. -/
def weeklyMetrics (n : Now) (ws : List Workout) : ℕ :=
  (ws.filter fun w => n.day - 7 ≤ w.date).length

/-- The weekly-workout count of `generate_exercise_tips`:
`df['date'] = pd.to_datetime(df['date'])` turns each record date into the
midnight timestamp `date * 86400`, which is then compared with the full
timestamp `datetime.now() - timedelta(days=7)`, namely
`(day - 7) * 86400 + tod`. -/
def weeklyTips (n : Now) (ws : List Workout) : ℕ :=
  (ws.filter fun w => (n.day - 7) * 86400 + (n.tod : ℤ) ≤ w.date * 86400).length

/-- Output dict of `calculate_metrics`. -/
structure Metrics where
  total_workouts : ℕ
  total_duration : ℤ
  total_calories : ℤ
  avg_duration : ℚ
  weekly_workouts : ℕ
deriving DecidableEq, Repr

/-- `calculate_metrics(workouts)`. -/
def calculateMetrics (n : Now) (ws : List Workout) : Metrics :=
  if ws = [] then
    { total_workouts := 0
      total_duration := 0
      total_calories := 0
      avg_duration := 0
      weekly_workouts := 0 }
  else
    { total_workouts := ws.length
      total_duration := (ws.map fun w => w.duration).sum
      total_calories := (ws.map fun w => w.calories).sum
      avg_duration := round1 (avgDurationQ ws)
      weekly_workouts := weeklyMetrics n ws }

/-- `get_fitness_level(workouts)`. -/
def getFitnessLevel (ws : List Workout) : String :=
  if ws = [] then "Beginner"
  else
    if ws.length < 10 ∨ avgDurationQ ws < 20 then "Beginner"
    else if ws.length < 30 ∨ avgDurationQ ws < 45 then "Intermediate"
    else "Advanced"

/-- Threshold tip emitted when `weekly_workouts < 3`. -/
def tipWeekly : String := "Try to exercise at least 3 times per week for better results"

/-- Threshold tip emitted when `avg_duration < 30`. -/
def tipDuration : String := "Aim for at least 30 minutes per workout session"

/-- Threshold tip emitted when fewer than 3 distinct workout types occur. -/
def tipVariety : String := "Mix up your routine with different types of exercises"

/-- Threshold tip emitted when `avg_calories < 200`. -/
def tipCalories : String := "Consider increasing workout intensity to burn more calories"

/-- Onboarding message returned by `generate_exercise_tips` for an empty
history. -/
def tipOnboarding : String := "Start your fitness journey by logging your first workout!"

/-- `generate_exercise_tips(workouts)`. -/
def generateExerciseTips (n : Now) (ws : List Workout) : List String :=
  if ws = [] then [tipOnboarding]
  else
    (if weeklyTips n ws < 3 then [tipWeekly] else []) ++
    (if avgDurationQ ws < 30 then [tipDuration] else []) ++
    (if distinctTypeCount ws < 3 then [tipVariety] else []) ++
    (if avgCaloriesQ ws < 200 then [tipCalories] else [])

/-- The `FITNESS_TIPS` constant: tier label to its list of five curated
suggestions. -/
def FITNESS_TIPS : List (String × List String) :=
  [("Beginner",
    ["Start with 10 minutes of walking daily",
     "Stay hydrated - drink water before, during, and after exercise",
     "Focus on proper form rather than speed",
     "Get at least 7-8 hours of sleep",
     "Start with bodyweight exercises before using weights"]),
   ("Intermediate",
    ["Mix cardio with strength training",
     "Try HIIT workouts for better results",
     "Include rest days in your routine",
     "Track your protein intake",
     "Try new exercises to challenge yourself"]),
   ("Advanced",
    ["Focus on progressive overload",
     "Consider split training routines",
     "Monitor your heart rate zones",
     "Plan deload weeks",
     "Include mobility work in your routine"])]

/-- `random.choice(l)` with the randomness injected as an index `k`: picks
`l[k % len(l)]`, which exists exactly when `l` is non-empty. -/
def randomChoice {α : Type} (l : List α) (k : ℕ) : Option α := l.get? (k % l.length)

/-- The export formats offered by the `Export Data` page of `main`. -/
inductive ExportFormat
  | pdf
  | csv
  | txt
deriving DecidableEq, Repr

/-- The filename passed to `st.download_button` for each export format. -/
def exportFilename : ExportFormat → String
  | ExportFormat.pdf => "fitness_tracker_report.pdf"
  | ExportFormat.csv => "fitness_tracker_data.csv"
  | ExportFormat.txt => "fitness_tracker_data.txt"

/-- The content type passed to `st.download_button` for each export format. -/
def exportContentType : ExportFormat → String
  | ExportFormat.pdf => "application/pdf"
  | ExportFormat.csv => "text/csv"
  | ExportFormat.txt => "text/plain"

/-- The numeric column of the data frame selected by name, as
`px.line(df, x='date', y=metric)` reads it. -/
def fieldVal (metric : String) (w : Workout) : ℚ :=
  if metric = "duration" then (w.duration : ℚ)
  else if metric = "calories" then (w.calories : ℚ)
  else if metric = "distance" then w.distance
  else if metric = "heart_rate" then (w.heart_rate : ℚ)
  else 0

/-- Whether `metric` names a numeric column of a non-empty workout frame. -/
def validMetric (metric : String) : Bool :=
  metric = "duration" ∨ metric = "calories" ∨ metric = "distance" ∨
    metric = "heart_rate"

/-- `create_progress_chart(data, metric)`. `pd.DataFrame` of an empty list
has no columns at all, so `px.line(df, x='date', y=metric)` raises a
missing-column error; otherwise the line chart carries one
`(date, value)` point per record in original order. -/
def createProgressChart (data : List Workout) (metric : String) :
    Except String (List (ℤ × ℚ)) :=
  if data = [] then
    Except.error ("Value of " ++ metric ++ " is not a column of the empty data frame")
  else if validMetric metric then
    Except.ok (data.map fun w => (w.date, fieldVal metric w))
  else
    Except.error ("Value of " ++ metric ++ " is not a column of the data frame")

/-- `df['type'].value_counts()`: occurrence count of each distinct type
(the source consumes it as a proportional breakdown, so the order of the
pairs is irrelevant; first-occurrence order is used here). -/
def valueCounts (l : List String) : List (String × ℕ) :=
  l.eraseDups.map fun t => (t, l.count t)

/-- `create_workout_distribution(data)`. On the empty list the frame has no
`type` column, so `df['type']` raises `KeyError`; otherwise the pie chart
carries the type distribution. -/
def createWorkoutDistribution (data : List Workout) :
    Except String (List (String × ℕ)) :=
  if data = [] then Except.error "KeyError: type"
  else Except.ok (valueCounts (data.map fun w => w.type))

/-- One rendered table row of the PDF report: the four cell strings built
in `create_pdf_report` before the per-row `try` block. -/
structure PdfRow where
  date : List Char
  type : List Char
  duration : List Char
  calories : List Char
deriving DecidableEq, Repr

/-- The cell strings of a record's PDF table row: the `type` field is
truncated to its first 20 characters (`workout['type'][:20]`) before any
cell is rendered; building the row itself cannot raise. -/
def mkPdfRow (w : Workout) : PdfRow :=
  { date := (toString w.date).toList
    type := w.type.toList.take 20
    duration := (toString w.duration).toList
    calories := (toString w.calories).toList }

/-- The rows that make it into the PDF table: the per-row `try ... except:
continue` is modelled by an oracle `rowOk` telling which rows the cell
renderer accepts; a failing row is skipped and iteration continues. -/
def pdfTableRows (rowOk : PdfRow → Bool) (ws : List Workout) : List PdfRow :=
  (ws.map mkPdfRow).filter rowOk

/-- `.encode('latin-1', errors='replace')`: each character encodable in one
byte maps to its code point, every other character is substituted by `?`
(byte 63); the encoding is total. -/
def encodeLatin1 (s : List Char) : List ℕ :=
  s.map fun c => if c.toNat < 256 then c.toNat else 63

/-- The text content written into the PDF document by `create_pdf_report`:
title, summary block, table header and the accepted table rows. -/
def pdfLines (rowOk : PdfRow → Bool) (n : Now) (ws : List Workout) :
    List (List Char) :=
  let m := calculateMetrics n ws
  ["Fitness Tracker Report".toList,
   "Summary".toList,
   ("Total Workouts: " ++ toString m.total_workouts).toList,
   ("Total Duration: " ++ toString m.total_duration ++ " minutes").toList,
   ("Total Calories: " ++ toString m.total_calories ++ " kcal").toList,
   "Workout History".toList,
   "Date".toList, "Type".toList, "Duration".toList, "Calories".toList] ++
  (pdfTableRows rowOk ws).map fun r => r.date ++ r.type ++ r.duration ++ r.calories

/-- `create_pdf_report(workouts)`: the outer `try ... except` is modelled by
an oracle `exn` carrying the message of a raised exception, if any.  On
failure the function shows `st.error("Error creating PDF: ...")` and
returns `None`; on success it returns the latin-1 bytes of the document.
The result is the pair (returned bytes, displayed error message). -/
def createPdfReport (exn : Option String) (rowOk : PdfRow → Bool) (n : Now)
    (ws : List Workout) : Option (List ℕ) × Option String :=
  match exn with
  | some e => (none, some ("Error creating PDF: " ++ e))
  | none => (some (encodeLatin1 (pdfLines rowOk n ws).flatten), none)

/-- The PDF branch of `main`'s export page: `if pdf_data:` offers a download
button only for a truthy (non-`None`, non-empty) result. -/
def mainPdfExport (res : Option (List ℕ) × Option String) :
    Option (String × String × List ℕ) :=
  match res.1 with
  | some d =>
    if d = [] then none
    else some (exportFilename ExportFormat.pdf, exportContentType ExportFormat.pdf, d)
  | none => none

/-- A CSV cell, as a sequence of characters. -/
abbrev Cell := List Char

/-- Characters that force `DataFrame.to_csv` (minimal quoting) to quote a
cell: the comma delimiter, the quote character and line breaks. -/
def specialChar (c : Char) : Bool :=
  c = ',' ∨ c = '"' ∨ c = '\n' ∨ c = '\r'

/-- Double every quote character, as standard CSV escaping does inside a
quoted cell. -/
def dupQuotes : Cell → Cell
  | [] => []
  | c :: cs => if c = '"' then '"' :: '"' :: dupQuotes cs else c :: dupQuotes cs

/-- Minimal quoting of one cell: wrap in quotes (doubling inner quotes)
exactly when the cell contains a special character. -/
def escCell (f : Cell) : Cell :=
  if f.any specialChar then '"' :: (dupQuotes f ++ ['"']) else f

/-- One CSV line: the escaped cells joined by commas. -/
def writeRowChars : List Cell → Cell
  | [] => []
  | [f] => escCell f
  | f :: fs => escCell f ++ ',' :: writeRowChars fs

/-- A whole CSV text, as `DataFrame.to_csv` emits it: every row, the header
included, is terminated by a newline. -/
def writeTable (t : List (List Cell)) : Cell :=
  (t.map fun r => writeRowChars r ++ ['\n']).flatten

/-- CSV parser state: inside an unquoted cell, inside a quoted cell, or
just after a quote inside a quoted cell (where a second quote means an
escaped quote and anything else ends the quoted part). -/
inductive PState
  | norm
  | inq
  | postq
deriving DecidableEq, Repr

/-- Character-at-a-time CSV parser (standard quoting rules): carries the
current cell (reversed), the current row (reversed) and the finished rows
(reversed); anything pending at end of input is flushed. -/
def parseAux : List Char → PState → Cell → List Cell → List (List Cell) → List (List Cell)
  | [], _, fld, row, rows =>
    if fld = [] ∧ row = [] then rows.reverse
    else ((fld.reverse :: row).reverse :: rows).reverse
  | c :: cs, PState.inq, fld, row, rows =>
    if c = '"' then parseAux cs PState.postq fld row rows
    else parseAux cs PState.inq (c :: fld) row rows
  | c :: cs, PState.postq, fld, row, rows =>
    if c = '"' then parseAux cs PState.inq ('"' :: fld) row rows
    else if c = ',' then parseAux cs PState.norm [] (fld.reverse :: row) rows
    else if c = '\n' then parseAux cs PState.norm [] [] ((fld.reverse :: row).reverse :: rows)
    else parseAux cs PState.norm (c :: fld) row rows
  | c :: cs, PState.norm, fld, row, rows =>
    if c = '"' ∧ fld = [] then parseAux cs PState.inq fld row rows
    else if c = ',' then parseAux cs PState.norm [] (fld.reverse :: row) rows
    else if c = '\n' then parseAux cs PState.norm [] [] ((fld.reverse :: row).reverse :: rows)
    else parseAux cs PState.norm (c :: fld) row rows

/-- Parse a CSV text into its rows of cells. -/
def parseCSV (s : Cell) : List (List Cell) := parseAux s PState.norm [] [] []

/-- The header row written by `df.to_csv(index=False)`: the workout dict
keys in insertion order. -/
def csvHeaderCells : List Cell :=
  ["date".toList, "type".toList, "duration".toList, "calories".toList,
   "distance".toList, "heart_rate".toList, "notes".toList]

/-- The cell strings of one record's CSV line: every field of the record,
rendered in column order. -/
def workoutCells (w : Workout) : List Cell :=
  [(toString w.date).toList, w.type.toList, (toString w.duration).toList,
   (toString w.calories).toList, (toString w.distance).toList,
   (toString w.heart_rate).toList, w.notes.toList]

/-- `df.to_csv(index=False)` of the workout list: header line then one line
per record; for the empty list the frame has no columns and the output is
a single empty line. -/
def exportCSV (ws : List Workout) : Cell :=
  if ws = [] then writeTable [[]]
  else writeTable (csvHeaderCells :: ws.map workoutCells)

/-- A sample record: today minus seven days is day 0, `Running`, 30 minutes,
200 kcal. -/
def w0 : Workout :=
  { date := 0, type := "Running", duration := 30, calories := 200
    distance := 0, heart_rate := 0, notes := "" }

/-- A sample `now`: day 7, one second after midnight. -/
def now0 : Now := { day := 7, tod := 1 }

/-- A sample record whose `type` string is longer than 20 characters. -/
def wLong : Workout :=
  { date := 0, type := "Strength Training Extra Long Name", duration := 45
    calories := 300, distance := 0, heart_rate := 0, notes := "" }

/-- C5: on the empty record sequence `calculate_metrics` returns the all-zero
metrics dict, `get_fitness_level` returns `Beginner`, and
`generate_exercise_tips` returns exactly the single onboarding message. -/
theorem empty_sequence_behavior (n : Now) :
    calculateMetrics n [] =
      { total_workouts := 0, total_duration := 0, total_calories := 0
        avg_duration := 0, weekly_workouts := 0 } ∧
    getFitnessLevel [] = "Beginner" ∧
    generateExerciseTips n [] = [tipOnboarding] :=
  ⟨rfl, rfl, rfl⟩

/-- C6: on a non-empty record sequence `get_fitness_level` applies the
ordered first-match rule on the record count and the mean duration
(`total_workouts < 10` or `avg_duration < 20` gives Beginner, otherwise
`total_workouts < 30` or `avg_duration < 45` gives Intermediate, otherwise
Advanced); in particular 35 records of duration 50 classify as Advanced. -/
theorem fitness_level_rule (ws : List Workout) (h : ws ≠ []) :
    getFitnessLevel ws =
      (if ws.length < 10 ∨ avgDurationQ ws < 20 then "Beginner"
       else if ws.length < 30 ∨ avgDurationQ ws < 45 then "Intermediate"
       else "Advanced") ∧
    (∀ w : Workout, w.duration = 50 →
      getFitnessLevel (List.replicate 35 w) = "Advanced") := by
  constructor
  · rw [getFitnessLevel, if_neg h]
  · intro w hw
    have hne : List.replicate 35 w ≠ [] := by simp
    have havg : avgDurationQ (List.replicate 35 w) = 50 := by
      simp [avgDurationQ, meanQ, List.map_replicate, List.sum_replicate, hw]
      norm_num
    rw [getFitnessLevel, if_neg hne, havg]
    norm_num

/-- Witness for C6: a single 30-minute record classifies as Beginner. -/
theorem fitness_level_rule_witness : getFitnessLevel [w0] = "Beginner" :=
  (fitness_level_rule [w0] (by decide)).1.trans (by decide)

theorem tips_ne_wd : tipWeekly ≠ tipDuration := by decide

theorem tips_ne_wv : tipWeekly ≠ tipVariety := by decide

theorem tips_ne_wc : tipWeekly ≠ tipCalories := by decide

theorem tips_ne_dv : tipDuration ≠ tipVariety := by decide

theorem tips_ne_dc : tipDuration ≠ tipCalories := by decide

theorem tips_ne_vc : tipVariety ≠ tipCalories := by decide

theorem ite_singleton_sublist {α : Type} (c : Prop) [Decidable c] (a : α)
    (l1 l2 : List α) (hs : List.Sublist l1 l2) :
    List.Sublist ((if c then [a] else []) ++ l1) (a :: l2) := by
  split
  · exact List.Sublist.cons₂ a hs
  · exact List.Sublist.cons a hs

/-- C7: on a non-empty history, each of the four threshold tips of
`generate_exercise_tips` appears exactly when its threshold fails, the
returned list is a sublist of the four tips in their fixed order (so the
messages appear at most once each and in order), and when every threshold
is satisfied the returned list is empty. -/
theorem threshold_tips_rule (n : Now) (ws : List Workout) (h : ws ≠ []) :
    (tipWeekly ∈ generateExerciseTips n ws ↔ weeklyTips n ws < 3) ∧
    (tipDuration ∈ generateExerciseTips n ws ↔ avgDurationQ ws < 30) ∧
    (tipVariety ∈ generateExerciseTips n ws ↔ distinctTypeCount ws < 3) ∧
    (tipCalories ∈ generateExerciseTips n ws ↔ avgCaloriesQ ws < 200) ∧
    List.Sublist (generateExerciseTips n ws)
      [tipWeekly, tipDuration, tipVariety, tipCalories] ∧
    (3 ≤ weeklyTips n ws → 30 ≤ avgDurationQ ws → 3 ≤ distinctTypeCount ws →
      200 ≤ avgCaloriesQ ws → generateExerciseTips n ws = []) := by
  rw [generateExerciseTips, if_neg h]
  refine ⟨?_, ?_, ?_, ?_, ?_, ?_⟩
  · by_cases h1 : weeklyTips n ws < 3 <;> by_cases h2 : avgDurationQ ws < 30 <;>
      by_cases h3 : distinctTypeCount ws < 3 <;> by_cases h4 : avgCaloriesQ ws < 200 <;>
      simp [h1, h2, h3, h4, tips_ne_wd, tips_ne_wv, tips_ne_wc]
  · by_cases h1 : weeklyTips n ws < 3 <;> by_cases h2 : avgDurationQ ws < 30 <;>
      by_cases h3 : distinctTypeCount ws < 3 <;> by_cases h4 : avgCaloriesQ ws < 200 <;>
      simp [h1, h2, h3, h4, Ne.symm tips_ne_wd, tips_ne_dv, tips_ne_dc]
  · by_cases h1 : weeklyTips n ws < 3 <;> by_cases h2 : avgDurationQ ws < 30 <;>
      by_cases h3 : distinctTypeCount ws < 3 <;> by_cases h4 : avgCaloriesQ ws < 200 <;>
      simp [h1, h2, h3, h4, Ne.symm tips_ne_wv, Ne.symm tips_ne_dv, tips_ne_vc]
  · by_cases h1 : weeklyTips n ws < 3 <;> by_cases h2 : avgDurationQ ws < 30 <;>
      by_cases h3 : distinctTypeCount ws < 3 <;> by_cases h4 : avgCaloriesQ ws < 200 <;>
      simp [h1, h2, h3, h4, Ne.symm tips_ne_wc, Ne.symm tips_ne_dc, Ne.symm tips_ne_vc]
  · simp only [List.append_assoc]
    refine ite_singleton_sublist _ _ _ _ ?_
    refine ite_singleton_sublist _ _ _ _ ?_
    refine ite_singleton_sublist _ _ _ _ ?_
    split
    · exact List.Sublist.refl _
    · exact List.nil_sublist _
  · intro g1 g2 g3 g4
    rw [if_neg (not_lt.mpr g1), if_neg (not_lt.mpr g2), if_neg (not_lt.mpr g3),
      if_neg (not_lt.mpr g4)]
    rfl

/-- Witness for C7: for `now0` and the single record `w0`, the weekly and
variety thresholds fail while the duration and calorie thresholds hold. -/
theorem threshold_tips_rule_witness :
    (tipWeekly ∈ generateExerciseTips now0 [w0]) ∧
    (tipVariety ∈ generateExerciseTips now0 [w0]) ∧
    tipDuration ∉ generateExerciseTips now0 [w0] :=
  ⟨((threshold_tips_rule now0 [w0] (by decide)).1).mpr (by decide),
   ((threshold_tips_rule now0 [w0] (by decide)).2.2.1).mpr (by decide),
   fun hm => absurd (((threshold_tips_rule now0 [w0] (by decide)).2.1).mp hm)
     (by norm_num [avgDurationQ, meanQ, w0])⟩

/-- C1 counterexample: one record dated exactly seven days before `now`
(with `now` one second after midnight) is counted by the weekly filter of
`calculate_metrics` but not by the one of `generate_exercise_tips`, so the
two weekly counts differ. -/
theorem weekly_counts_cex :
    weeklyMetrics now0 [w0] = 1 ∧ weeklyTips now0 [w0] = 0 ∧
    weeklyTips now0 [w0] ≠ weeklyMetrics now0 [w0] := by decide

/-- C1 as amended: the weekly count of `calculate_metrics` is the number of
records with `date ≥ now - 7 days` compared as calendar dates (inclusive
lower bound), while the weekly count of `generate_exercise_tips` compares
the record's midnight timestamp with the timestamp `now - 7 days`, so it
excludes the boundary day whenever `now` has a nonzero time of day; the
tips count never exceeds the metrics count. -/
theorem weekly_counts_characterization (n : Now) (ws : List Workout)
    (h : n.tod < 86400) :
    weeklyMetrics n ws = (ws.filter fun w => n.day - 7 ≤ w.date).length ∧
    weeklyTips n ws =
      (ws.filter fun w =>
        n.day - 7 + (if n.tod = 0 then 0 else 1) ≤ w.date).length ∧
    weeklyTips n ws ≤ weeklyMetrics n ws := by
  refine ⟨rfl, ?_, ?_⟩
  · unfold weeklyTips
    congr 1
    apply List.filter_congr
    intro w _
    simp only [decide_eq_decide]
    have htod2 : ((n.tod : ℤ)) < 86400 := by exact_mod_cast h
    by_cases ht : n.tod = 0
    · rw [ht]
      simp only [if_true, eq_self_iff_true, Nat.cast_zero, add_zero]
      constructor <;> intro hle
      · nlinarith
      · nlinarith
    · rw [if_neg ht]
      have hpos : (0 : ℤ) < (n.tod : ℤ) := by
        exact_mod_cast Nat.pos_of_ne_zero ht
      constructor <;> intro hle
      · nlinarith
      · nlinarith
  · unfold weeklyTips weeklyMetrics
    apply List.Sublist.length_le
    apply List.monotone_filter_right
    intro w hw
    simp only [decide_eq_true_eq] at hw ⊢
    have htod : (0 : ℤ) ≤ (n.tod : ℤ) := Int.ofNat_nonneg n.tod
    nlinarith

/-- Witness for C1's amended statement at `now0` and a single record. -/
theorem weekly_counts_characterization_witness :
    weeklyMetrics now0 [w0] =
      ([w0].filter fun w => now0.day - 7 ≤ w.date).length ∧
    weeklyTips now0 [w0] =
      ([w0].filter fun w =>
        now0.day - 7 + (if now0.tod = 0 then 0 else 1) ≤ w.date).length ∧
    weeklyTips now0 [w0] ≤ weeklyMetrics now0 [w0] :=
  weekly_counts_characterization now0 [w0] (by decide)

/-- C2 counterexample: the delimited-text (CSV) export's suggested filename
is `fitness_tracker_data.csv`, not `fitness_tracker_report.csv`, and the
plain-text export's is `fitness_tracker_data.txt`. -/
theorem export_filename_cex :
    exportFilename ExportFormat.csv ≠ "fitness_tracker_report.csv" ∧
    exportFilename ExportFormat.txt ≠ "fitness_tracker_report.txt" := by decide

/-- C2 as amended: only the structured-document (PDF) export is named
`fitness_tracker_report.pdf`; the CSV and TXT exports are named
`fitness_tracker_data.csv` and `fitness_tracker_data.txt`; the content
types are the corresponding document, delimited-text and plain-text
types. -/
theorem export_artifacts :
    exportFilename ExportFormat.pdf = "fitness_tracker_report.pdf" ∧
    exportContentType ExportFormat.pdf = "application/pdf" ∧
    exportFilename ExportFormat.csv = "fitness_tracker_data.csv" ∧
    exportContentType ExportFormat.csv = "text/csv" ∧
    exportFilename ExportFormat.txt = "fitness_tracker_data.txt" ∧
    exportContentType ExportFormat.txt = "text/plain" := by decide

/-- C3 counterexample: on an empty record sequence both chart preparers
fail with a missing-column error instead of returning an empty series,
because `pd.DataFrame([])` has no columns at all. -/
theorem chart_preparers_empty_cex :
    createProgressChart [] "duration" =
      Except.error "Value of duration is not a column of the empty data frame" ∧
    createWorkoutDistribution [] = Except.error "KeyError: type" := ⟨rfl, rfl⟩

/-- C3 as amended: on an empty sequence the preparers raise a
missing-column error (`main` guards against this by returning early when
no workout is logged); on every non-empty sequence both return their full
series without raising and with no division. -/
theorem chart_preparers_nonempty (data : List Workout) (h : data ≠ []) :
    createProgressChart data "duration" =
      Except.ok (data.map fun w => (w.date, (w.duration : ℚ))) ∧
    createWorkoutDistribution data =
      Except.ok (valueCounts (data.map fun w => w.type)) := by
  constructor
  · rw [createProgressChart, if_neg h, if_pos (by decide)]
    simp [fieldVal]
  · rw [createWorkoutDistribution, if_neg h]

/-- Witness for C3's amended statement on a single record. -/
theorem chart_preparers_nonempty_witness :
    createProgressChart [w0] "duration" =
      Except.ok ([w0].map fun w => (w.date, (w.duration : ℚ))) ∧
    createWorkoutDistribution [w0] =
      Except.ok (valueCounts ([w0].map fun w => w.type)) :=
  chart_preparers_nonempty [w0] (by decide)

/-- C8: every PDF table row truncates the record's `type` to at most 20
characters, building a row never raises (it is total, even for a `type`
longer than 20 characters), and the rendered rows are exactly the rows the
cell renderer accepts, in order: a failing row is skipped and generation
continues with the remaining records. -/
theorem pdf_row_truncation (rowOk : PdfRow → Bool) (ws : List Workout) :
    (∀ w : Workout, (mkPdfRow w).type.length ≤ 20) ∧
    (∀ r ∈ pdfTableRows rowOk ws, r.type.length ≤ 20) ∧
    List.Sublist (pdfTableRows rowOk ws) (ws.map mkPdfRow) ∧
    (∀ w ∈ ws, rowOk (mkPdfRow w) = true → mkPdfRow w ∈ pdfTableRows rowOk ws) := by
  refine ⟨?_, ?_, ?_, ?_⟩
  · intro w
    simp only [mkPdfRow, List.length_take]
    omega
  · intro r hr
    have hr2 : r ∈ ws.map mkPdfRow := List.mem_of_mem_filter hr
    rcases List.mem_map.mp hr2 with ⟨w, _, rfl⟩
    simp only [mkPdfRow, List.length_take]
    omega
  · exact List.filter_sublist _
  · intro w hw hok
    exact List.mem_filter.mpr ⟨List.mem_map_of_mem _ hw, hok⟩

/-- Witness for C8: the record with a 34-character type renders with its
type truncated to exactly the first 20 characters. -/
theorem pdf_row_truncation_witness :
    (mkPdfRow wLong).type.length ≤ 20 ∧
    (mkPdfRow wLong).type = "Strength Training Ex".toList :=
  ⟨(pdf_row_truncation (fun _ => true) [wLong]).1 wLong, by decide⟩

/-- C9: when PDF generation raises, `create_pdf_report` returns no document
together with the descriptive error message, and `main` offers no download
artifact; the latin-1 encoding of the document is total, stays within one
byte per character, and substitutes each non-encodable character instead
of raising. -/
theorem pdf_failure_handling (e : String) (rowOk : PdfRow → Bool) (n : Now)
    (ws : List Workout) (s : List Char) :
    createPdfReport (some e) rowOk n ws = (none, some ("Error creating PDF: " ++ e)) ∧
    mainPdfExport (createPdfReport (some e) rowOk n ws) = none ∧
    (encodeLatin1 s).length = s.length ∧
    (encodeLatin1 s).all (fun b => decide (b < 256)) = true ∧
    (∀ c : Char, 256 ≤ c.toNat → encodeLatin1 [c] = [63]) := by
  refine ⟨rfl, rfl, ?_, ?_, ?_⟩
  · simp [encodeLatin1]
  · simp only [encodeLatin1, List.all_eq_true]
    intro b hb
    rcases List.mem_map.mp hb with ⟨c, _, rfl⟩
    by_cases hlt : c.toNat < 256 <;> simp [hlt]
  · intro c hc
    simp [encodeLatin1, if_neg (not_lt.mpr hc)]

/-- Witness for C9: a concrete failed export yields no artifact, and a
non-latin-1 character (code point 955) is substituted by `?`. -/
theorem pdf_failure_handling_witness :
    mainPdfExport (createPdfReport (some "boom") (fun _ => true) now0 [w0]) = none ∧
    encodeLatin1 [Char.ofNat 955] = [63] :=
  ⟨(pdf_failure_handling "boom" (fun _ => true) now0 [w0] []).2.1,
   (pdf_failure_handling "boom" (fun _ => true) now0 [w0] []).2.2.2.2
     (Char.ofNat 955) (by decide)⟩

theorem randomChoice_isSome {α : Type} (l : List α) (k : ℕ) (h : 0 < l.length) :
    (randomChoice l k).isSome = true := by
  unfold randomChoice
  have hk : k % l.length < l.length := Nat.mod_lt _ h
  rw [List.get?_eq_get hk]
  rfl

/-- C10: the classifier always returns one of the three tier labels, these
are exactly the keys of `FITNESS_TIPS`, the selected tier maps to a list
of 5 suggestions, and picking a random tip from it always succeeds. -/
theorem tier_tip_selection_total (ws : List Workout) (k : ℕ) :
    getFitnessLevel ws ∈ ["Beginner", "Intermediate", "Advanced"] ∧
    FITNESS_TIPS.map Prod.fst = ["Beginner", "Intermediate", "Advanced"] ∧
    ∃ tips, FITNESS_TIPS.lookup (getFitnessLevel ws) = some tips ∧
      tips.length = 5 ∧ (randomChoice tips k).isSome = true := by
  refine ⟨?_, rfl, ?_⟩
  · unfold getFitnessLevel
    split_ifs <;> simp
  · unfold getFitnessLevel
    split_ifs <;>
      exact ⟨_, rfl, rfl, randomChoice_isSome _ _ (by norm_num)⟩

theorem parseAux_dupQuotes (f : Cell) (rest : List Char) (fld : Cell)
    (row : List Cell) (rows : List (List Cell)) :
    parseAux (dupQuotes f ++ '"' :: rest) PState.inq fld row rows =
      parseAux rest PState.postq (f.reverse ++ fld) row rows := by
  induction f generalizing fld with
  | nil => simp [dupQuotes, parseAux]
  | cons c cs ih =>
    by_cases hc : c = '"'
    · subst hc
      simp only [dupQuotes, if_pos rfl, List.cons_append, parseAux, if_true,
        List.append_eq]
      rw [ih]
      simp
    · simp only [dupQuotes, if_neg hc, List.cons_append, parseAux, if_neg hc,
        List.append_eq]
      rw [ih]
      simp

theorem parseAux_plain (f : Cell) (rest : List Char) (fld : Cell)
    (row : List Cell) (rows : List (List Cell))
    (h : f.any specialChar = false) :
    parseAux (f ++ rest) PState.norm fld row rows =
      parseAux rest PState.norm (f.reverse ++ fld) row rows := by
  induction f generalizing fld with
  | nil => simp
  | cons c cs ih =>
    rw [List.any_cons, Bool.or_eq_false_iff] at h
    obtain ⟨h1, h2, h3, h4⟩ : ¬c = ',' ∧ ¬c = '"' ∧ ¬c = '\n' ∧ ¬c = '\r' := by
      have := h.1
      simp [specialChar] at this
      tauto
    simp only [List.cons_append, parseAux, List.append_eq]
    rw [if_neg (fun hx => h2 hx.1), if_neg h1, if_neg h3]
    rw [ih _ h.2]
    simp

theorem parseAux_comma (st : PState) (hst : st ≠ PState.inq) (cs : List Char)
    (fld : Cell) (row : List Cell) (rows : List (List Cell)) :
    parseAux (',' :: cs) st fld row rows =
      parseAux cs PState.norm [] (fld.reverse :: row) rows := by
  cases st
  · simp [parseAux]
  · exact absurd rfl hst
  · simp [parseAux]

theorem parseAux_newline (st : PState) (hst : st ≠ PState.inq) (cs : List Char)
    (fld : Cell) (row : List Cell) (rows : List (List Cell)) :
    parseAux ('\n' :: cs) st fld row rows =
      parseAux cs PState.norm [] [] ((fld.reverse :: row).reverse :: rows) := by
  cases st
  · simp [parseAux]
  · exact absurd rfl hst
  · simp [parseAux]

theorem parseAux_escCell (f : Cell) (rest : List Char)
    (row : List Cell) (rows : List (List Cell)) :
    parseAux (escCell f ++ rest) PState.norm [] row rows =
      parseAux rest (if f.any specialChar then PState.postq else PState.norm)
        f.reverse row rows := by
  by_cases hq : f.any specialChar
  · rw [escCell, if_pos hq, if_pos hq]
    simp only [List.cons_append, parseAux, if_true, List.append_eq,
      List.append_assoc, List.singleton_append]
    rw [parseAux_dupQuotes]
    simp
  · rw [escCell, if_neg hq, if_neg hq, parseAux_plain _ _ _ _ _ (by simpa using hq)]
    simp

theorem parseAux_row (f : Cell) (fs : List Cell) (rest : List Char)
    (row : List Cell) (rows : List (List Cell)) :
    parseAux (writeRowChars (f :: fs) ++ '\n' :: rest) PState.norm [] row rows =
      parseAux rest PState.norm [] [] ((row.reverse ++ f :: fs) :: rows) := by
  induction fs generalizing f row with
  | nil =>
    simp only [writeRowChars]
    rw [parseAux_escCell, parseAux_newline _ (by split <;> simp)]
    simp
  | cons f2 fs2 ih =>
    simp only [writeRowChars]
    rw [List.append_assoc, List.cons_append, parseAux_escCell,
      parseAux_comma _ (by split <;> simp)]
    rw [ih]
    simp

theorem parseAux_table (t : List (List Cell)) (rows : List (List Cell))
    (h : ∀ r ∈ t, r ≠ []) :
    parseAux (writeTable t) PState.norm [] [] rows = rows.reverse ++ t := by
  induction t generalizing rows with
  | nil => simp [writeTable, parseAux]
  | cons r t2 ih =>
    obtain ⟨f, fs, rfl⟩ : ∃ f fs, r = f :: fs := by
      cases r with
      | nil => exact absurd rfl (h _ (by simp))
      | cons f fs => exact ⟨f, fs, rfl⟩
    have hw : writeTable ((f :: fs) :: t2) =
        writeRowChars (f :: fs) ++ '\n' :: writeTable t2 := by
      simp [writeTable]
    rw [hw, parseAux_row]
    rw [ih _ (fun r hr => h r (by simp [hr]))]
    simp

theorem parseCSV_writeTable (t : List (List Cell)) (h : ∀ r ∈ t, r ≠ []) :
    parseCSV (writeTable t) = t := by
  unfold parseCSV
  rw [parseAux_table t [] h]
  simp

/-- C4: re-parsing the delimited-text export (minimal quoting, quotes
doubled inside quoted cells, every row newline-terminated) reproduces
every record's rendered field values exactly: dropping the header row of
the parse gives back the records' cells, and for a non-empty sequence the
parse is exactly the header row of field names followed by one row of
field values per record, in order. -/
theorem csv_roundtrip (ws : List Workout) :
    (parseCSV (exportCSV ws)).drop 1 = ws.map workoutCells ∧
    (ws ≠ [] →
      parseCSV (exportCSV ws) = csvHeaderCells :: ws.map workoutCells) := by
  by_cases hw : ws = []
  · subst hw
    exact ⟨by decide, fun hne => absurd rfl hne⟩
  · have hrows : ∀ r ∈ csvHeaderCells :: ws.map workoutCells, r ≠ [] := by
      intro r hr
      rcases List.mem_cons.mp hr with h1 | h2
      · subst h1
        simp [csvHeaderCells]
      · rcases List.mem_map.mp h2 with ⟨w, _, rfl⟩
        simp [workoutCells]
    rw [exportCSV, if_neg hw, parseCSV_writeTable _ hrows]
    exact ⟨rfl, fun _ => rfl⟩

/-- Witness for C4: the export of the single record `w0` re-parses to the
header row followed by that record's cells. -/
theorem csv_roundtrip_witness :
    parseCSV (exportCSV [w0]) = csvHeaderCells :: [w0].map workoutCells :=
  (csv_roundtrip [w0]).2 (by decide)

end FitnessTracker
